import Mathlib

/-!
Shallow embedding of the 31Third integrator scripts
(`src/single-swap.js` and `src/basket-swap.js`).

External collaborators (blockchain node, signer) are modelled by an `Env`
record that fixes the responses of every external call; each embedded
function returns, besides its value, a `List Call` trace of the external
calls it performs, in program order.  JavaScript `ethers.BigNumber`
values are modelled as `Nat` (they are unsigned, and `.mul`/`.div`
truncate like `Nat` arithmetic); JavaScript `undefined`/missing fields
are `Option.none`; JavaScript truthiness of a number is `≠ 0` and of a
string is `≠ ""`.  A rejected promise / thrown `Error e` is
`Except.error e`.  Signing with a valid key is deterministic and cannot
fail, so it is modelled as a pure step recorded in the trace; the
combined outcome of `sendTransaction` + `wait(1)` for the n-th broadcast
of the main transaction is `Env.attemptOutcome n`.
-/

/-- Transaction receipt as consumed by the scripts
(`receipt.blockNumber`, `receipt.gasUsed`, `txResponse.hash`). -/
structure Receipt where
  blockNumber : Nat
  gasUsed : Nat
  txHash : String
deriving DecidableEq, Repr

/-- The transaction object passed to `wallet.signTransaction` in both
scripts: fields `to, data, value, gasLimit, gasPrice, nonce, chainId`
(the source field `to` is spelled `toAddr` here because `to` is a
reserved word in Lean). -/
structure TxRequest where
  toAddr : String
  data : String
  value : Nat
  gasLimit : Nat
  gasPrice : Nat
  nonce : Nat
  chainId : Nat
deriving DecidableEq, Repr

/-- One external call performed by the scripts, recorded in program
order.  `sendApprove` is an ERC-20 `approve(spender, amount)`
transaction on token `token`; `sendTx` is a broadcast of the signed main
transaction; the read calls mirror `allowance`, `getGasPrice`,
`estimateGas`, `getTransactionCount` and `getNetwork().chainId`. -/
inductive Call where
  | readAllowance (token spender : String)
  | readGasPrice
  | estimateGasCall
  | readNonce
  | readChainId
  | sendApprove (token spender : String) (amount : Nat)
  | signTx (tx : TxRequest)
  | sendTx (tx : TxRequest)
deriving DecidableEq, Repr

/-- Responses of the external world (node + ERC-20 contracts), fixed per
run: `allowance token spender` is the current allowance of the wallet
owner towards `spender` on `token`; `estimate` the outcome of
`provider.estimateGas`; `attemptOutcome n` the combined outcome of the
n-th `sendTransaction` + `wait(1)` of the main transaction;
`approveOutcome token spender` the combined outcome of the approval
transaction + `wait(1)` for that pair. -/
structure Env where
  allowance : String → String → Nat
  gasPrice : Nat
  estimate : Except String Nat
  nonce : Nat
  chainId : Nat
  attemptOutcome : Nat → Except String Receipt
  approveOutcome : String → String → Except String Receipt

/-- `ethers.constants.MaxUint256`. -/
def maxUint256 : Nat := 2 ^ 256 - 1

/-- `leadsWith s pat`: the character list `s` starts with `pat`. -/
def leadsWith : List Char → List Char → Bool
  | _, [] => true
  | [], _ :: _ => false
  | a :: as, b :: bs => a == b && leadsWith as bs

/-- `charsContain s pat`: `pat` occurs contiguously somewhere in `s`. -/
def charsContain : List Char → List Char → Bool
  | [], pat => pat.isEmpty
  | a :: as, pat => leadsWith (a :: as) pat || charsContain as pat

/-- JavaScript substring test `s.includes(sub)`. -/
def containsSub (s sub : String) : Bool := charsContain s.data sub.data

/-- The gas-shortfall classification of both scripts:
`error.message.includes("gas limit") ||
 error.message.includes("UNPREDICTABLE_GAS_LIMIT")`. -/
def isGasShortfall (msg : String) : Bool :=
  containsSub msg "gas limit" || containsSub msg "UNPREDICTABLE_GAS_LIMIT"

/-- JavaScript falsiness of an optional string field
(`undefined`, `null` or `""`). -/
def strFalsy : Option String → Bool
  | none => true
  | some s => s == ""

/-- JavaScript falsiness of an optional numeric field
(`undefined`, `null` or `0`). -/
def natFalsy : Option Nat → Bool
  | none => true
  | some n => n == 0

/-- The shared `try { sign; send; wait } catch` block of both scripts
(`single-swap.js` lines 194–230, `basket-swap.js` lines 359–395): sign
and broadcast `tx`; on failure whose message matches the gas-shortfall
classification, rebuild with `gasLimit := bump tx.gasLimit`
(`mul(150).div(100)` in the batch script, the constant `750000` in the
single-swap script), re-sign and re-send once; any other failure, or a
failure of the retry, propagates unchanged. -/
def trySubmit (outcome : Nat → Except String Receipt) (bump : Nat → Nat)
    (tx : TxRequest) : List Call × Except String Receipt :=
  match outcome 0 with
  | Except.ok r => ([Call.signTx tx, Call.sendTx tx], Except.ok r)
  | Except.error msg =>
    if isGasShortfall msg then
      let tx2 : TxRequest := { tx with gasLimit := bump tx.gasLimit }
      ([Call.signTx tx, Call.sendTx tx, Call.signTx tx2, Call.sendTx tx2],
       outcome 1)
    else
      ([Call.signTx tx, Call.sendTx tx], Except.error msg)

/-- `checkAndSetAllowance(provider, wallet, tokenAddress, spenderAddress,
amount)`, identical in both scripts: read the current allowance; if it
is `< amount`, read the gas price and send an `approve` for
`MaxUint256`, wait for 1 confirmation and return `true`; otherwise
return `false`. -/
def checkAndSetAllowance (env : Env) (tokenAddress spenderAddress : String)
    (amount : Nat) : List Call × Except String Bool :=
  let currentAllowance := env.allowance tokenAddress spenderAddress
  if currentAllowance < amount then
    match env.approveOutcome tokenAddress spenderAddress with
    | Except.ok _ =>
      ([Call.readAllowance tokenAddress spenderAddress, Call.readGasPrice,
        Call.sendApprove tokenAddress spenderAddress maxUint256],
       Except.ok true)
    | Except.error e =>
      ([Call.readAllowance tokenAddress spenderAddress, Call.readGasPrice,
        Call.sendApprove tokenAddress spenderAddress maxUint256],
       Except.error e)
  else
    ([Call.readAllowance tokenAddress spenderAddress], Except.ok false)

/-- One `requiredAllowances` entry of the rebalancing API response as
read by `handleRequiredAllowances`: `allowance.token.address` (also
`none` when `token` itself is missing), `allowance.allowanceTarget`,
`allowance.neededAllowance` (modelled as a number). -/
structure AllowanceReq where
  tokenAddress : Option String
  symbol : String
  allowanceTarget : Option String
  neededAllowance : Option Nat
deriving DecidableEq, Repr

/-- The body of one `requiredAllowances.map` callback in
`handleRequiredAllowances` (`basket-swap.js` lines 147–167): throw
`"Incomplete allowance data"` when any of the three fields is falsy,
else run `checkAndSetAllowance`. -/
def processRequirement (env : Env) (a : AllowanceReq) :
    List Call × Except String Bool :=
  if strFalsy a.tokenAddress || strFalsy a.allowanceTarget
      || natFalsy a.neededAllowance then
    ([], Except.error "Incomplete allowance data")
  else
    checkAndSetAllowance env (a.tokenAddress.getD "")
      (a.allowanceTarget.getD "") (a.neededAllowance.getD 0)

/-- First rejection among the per-entry outcomes (in entry order),
standing for the rejection `Promise.all` reports. -/
def firstError : List (Except String Bool) → Option String
  | [] => none
  | Except.error e :: _ => some e
  | Except.ok _ :: rs => firstError rs

/-- `handleRequiredAllowances(provider, wallet, requiredAllowances)`
(`basket-swap.js` lines 137–171): empty (or missing) list returns
immediately; otherwise every entry is processed by its own promise
(`Promise.all` starts all of them, so every entry's calls happen even
when another entry rejects), and the whole call rejects iff some entry
does.  The JavaScript function returns `undefined` on success, modelled
as `Option.none : Option Nat`. -/
def handleRequiredAllowances (env : Env) (reqs : List AllowanceReq) :
    List Call × Except String (Option Nat) :=
  if reqs.isEmpty then ([], Except.ok none)
  else
    let results := reqs.map (processRequirement env)
    let trace := (results.map Prod.fst).flatten
    match firstError (results.map Prod.snd) with
    | some e => (trace, Except.error e)
    | none => (trace, Except.ok none)

/-- The gas-limit computation of `executeWalletRebalancing`
(`basket-swap.js` lines 316–329): on estimation success `G`, use
`G.mul(120).div(100)`; on any estimation failure, use the fallback
limit (the failure is caught, logged and not re-thrown). -/
def estimateGasLimit (est : Except String Nat) (fallback : Nat) : Nat :=
  match est with
  | Except.ok g => g * 120 / 100
  | Except.error _ => fallback

/-- The rebalancing API response fields read by
`executeWalletRebalancing`: `txHandler`, `txData`, `txValue`,
`requiredAllowances`.  `gasPrice` stands for a gas-price hint the
response may carry; the script never reads it. -/
structure RebalanceData where
  txHandler : Option String
  txData : Option String
  txValue : Option Nat
  gasPrice : Option Nat
  requiredAllowances : List AllowanceReq

/-- `executeWalletRebalancing` (`basket-swap.js` lines 296–395), from
the point where the API response `d` is in hand: if `txHandler` or
`txData` is falsy, log a warning and return `undefined` (no error, no
further call); otherwise run `handleRequiredAllowances`, read the gas
price, estimate the gas limit with fallback `3000000`, read the nonce
and chain id, build the transaction and run the send/retry block with
`gasLimit.mul(150).div(100)` as the retry bump. -/
def executeWalletRebalancing (env : Env) (d : RebalanceData) :
    List Call × Except String (Option Receipt) :=
  if strFalsy d.txHandler || strFalsy d.txData then
    ([], Except.ok none)
  else
    let h := handleRequiredAllowances env d.requiredAllowances
    match h.2 with
    | Except.error e => (h.1, Except.error e)
    | Except.ok _ =>
      let tx : TxRequest :=
        { toAddr := d.txHandler.getD ""
          data := d.txData.getD ""
          value := d.txValue.getD 0
          gasLimit := estimateGasLimit env.estimate 3000000
          gasPrice := env.gasPrice
          nonce := env.nonce
          chainId := env.chainId }
      let s := trySubmit env.attemptOutcome (fun g => g * 150 / 100) tx
      (h.1 ++ [Call.readGasPrice, Call.estimateGasCall, Call.readNonce,
              Call.readChainId] ++ s.1,
       s.2.map some)

/-- The quote fields read by `swapWithThirtyOneThird`:
`quoteData.transaction.to` (also used as the approval spender),
`.data`, `.value`, `.gasPrice`. -/
structure SwapQuote where
  txTo : String
  txData : String
  txValue : Option Nat
  txGasPrice : Option Nat

/-- The sell token hard-coded in `single-swap.js` (USDT). -/
def fromTokenAddress : String := "0xdAC17F958D2ee523a2206206994597C13D831ec7"

/-- The sell amount hard-coded in `single-swap.js`:
`ethers.utils.parseUnits("1", 6)`. -/
def sellAmount : Nat := 1000000

/-- `swapWithThirtyOneThird` (`single-swap.js` lines 147–230), from the
point where the quote `q` is in hand: check/set the allowance of the
hard-coded sell token towards `quoteData.transaction.to`; build the
transaction with gas price = the quote's `gasPrice` if truthy else the
network gas price, and the fixed gas limit `500000` (no estimation
call); then run the send/retry block with the constant `750000` as the
retry bump. -/
def swapWithThirtyOneThird (env : Env) (q : SwapQuote) :
    List Call × Except String Receipt :=
  let a := checkAndSetAllowance env fromTokenAddress q.txTo sellAmount
  match a.2 with
  | Except.error e => (a.1, Except.error e)
  | Except.ok _ =>
    let gp : List Call × Nat :=
      match q.txGasPrice with
      | some g =>
        if g = 0 then ([Call.readGasPrice], env.gasPrice) else ([], g)
      | none => ([Call.readGasPrice], env.gasPrice)
    let tx : TxRequest :=
      { toAddr := q.txTo
        data := q.txData
        value := q.txValue.getD 0
        gasLimit := 500000
        gasPrice := gp.2
        nonce := env.nonce
        chainId := env.chainId }
    let s := trySubmit env.attemptOutcome (fun _ => 750000) tx
    (a.1 ++ gp.1 ++ [Call.readNonce, Call.readChainId] ++ s.1, s.2)

/-- The main transactions broadcast in a trace, in order. -/
def sentTxs (cs : List Call) : List TxRequest :=
  cs.filterMap fun c =>
    match c with
    | Call.sendTx tx => some tx
    | _ => none

/-- The approval transactions issued in a trace, in order:
(token, spender, approved amount). -/
def approvalsIssued (cs : List Call) : List (String × String × Nat) :=
  cs.filterMap fun c =>
    match c with
    | Call.sendApprove t s a => some (t, s, a)
    | _ => none

/-- Number of gas-estimation calls in a trace. -/
def countEstimates (cs : List Call) : Nat :=
  (cs.filter fun c => c == Call.estimateGasCall).length

/-- A sample receipt used in concrete scenarios. -/
def receiptA : Receipt := { blockNumber := 100, gasUsed := 90000, txHash := "0xaaa" }

/-- A baseline environment: zero allowances everywhere, network gas
price 7, estimation succeeds with 100000, every broadcast succeeds. -/
def envBase : Env :=
  { allowance := fun _ _ => 0
    gasPrice := 7
    estimate := Except.ok 100000
    nonce := 5
    chainId := 1
    attemptOutcome := fun _ => Except.ok receiptA
    approveOutcome := fun _ _ => Except.ok receiptA }

/-- A sample transaction request. -/
def txA : TxRequest :=
  { toAddr := "0xrouter", data := "0xcalldata", value := 0
    gasLimit := 400000, gasPrice := 7, nonce := 5, chainId := 1 }

/-- Send outcomes where the first broadcast fails with a gas-shortfall
message and the second succeeds. -/
def outcomeRetry : Nat → Except String Receipt := fun n =>
  if n = 0 then Except.error "cannot estimate gas limit" else Except.ok receiptA

theorem sentTxs_append (l1 l2 : List Call) :
    sentTxs (l1 ++ l2) = sentTxs l1 ++ sentTxs l2 :=
  List.filterMap_append l1 l2 _

theorem approvalsIssued_append (l1 l2 : List Call) :
    approvalsIssued (l1 ++ l2) = approvalsIssued l1 ++ approvalsIssued l2 :=
  List.filterMap_append l1 l2 _

theorem countEstimates_append (l1 l2 : List Call) :
    countEstimates (l1 ++ l2) = countEstimates l1 + countEstimates l2 := by
  simp [countEstimates, List.filter_append]

theorem checkAndSetAllowance_trace_clean (env : Env) (t s : String) (amt : Nat) :
    sentTxs (checkAndSetAllowance env t s amt).1 = [] ∧
    countEstimates (checkAndSetAllowance env t s amt).1 = 0 := by
  unfold checkAndSetAllowance
  by_cases h : env.allowance t s < amt
  · simp only [h, if_true]
    cases env.approveOutcome t s <;> simp [sentTxs, countEstimates]
  · simp only [h, if_false]
    simp [sentTxs, countEstimates]

theorem processRequirement_trace_clean (env : Env) (a : AllowanceReq) :
    sentTxs (processRequirement env a).1 = [] ∧
    countEstimates (processRequirement env a).1 = 0 := by
  unfold processRequirement
  by_cases h : (strFalsy a.tokenAddress || strFalsy a.allowanceTarget
      || natFalsy a.neededAllowance) = true
  · simp [h, sentTxs, countEstimates]
  · simp only [h, if_false]
    exact checkAndSetAllowance_trace_clean env _ _ _

theorem handleRequiredAllowances_trace_clean (env : Env)
    (reqs : List AllowanceReq) :
    sentTxs (handleRequiredAllowances env reqs).1 = [] ∧
    countEstimates (handleRequiredAllowances env reqs).1 = 0 := by
  unfold handleRequiredAllowances
  by_cases h : reqs.isEmpty = true
  · simp [h, sentTxs, countEstimates]
  · simp only [h, if_false]
    have core : ∀ rs : List AllowanceReq,
        sentTxs ((rs.map (processRequirement env)).map Prod.fst).flatten = [] ∧
        countEstimates ((rs.map (processRequirement env)).map Prod.fst).flatten = 0 := by
      intro rs
      induction rs with
      | nil => simp [sentTxs, countEstimates]
      | cons b l ih =>
        simp only [List.map_cons, List.flatten_cons]
        rw [sentTxs_append, countEstimates_append] at *
        rcases processRequirement_trace_clean env b with ⟨h1, h2⟩
        rw [h1, h2, ih.1, ih.2]
        simp
    cases hf : firstError (List.map Prod.snd (reqs.map (processRequirement env))) <;>
      simpa [hf] using core reqs

theorem trySubmit_snd (outcome : Nat → Except String Receipt)
    (bump : Nat → Nat) (tx : TxRequest) :
    (trySubmit outcome bump tx).2 =
      (match outcome 0 with
       | Except.ok r => Except.ok r
       | Except.error msg =>
         if isGasShortfall msg then outcome 1 else Except.error msg) := by
  unfold trySubmit
  cases outcome 0 with
  | ok r => rfl
  | error msg =>
    by_cases h : isGasShortfall msg = true <;> simp [h]

theorem trySubmit_sent_head (outcome : Nat → Except String Receipt)
    (bump : Nat → Nat) (tx : TxRequest) :
    ((sentTxs (trySubmit outcome bump tx).1).map TxRequest.gasLimit).head? =
      some tx.gasLimit ∧
    countEstimates (trySubmit outcome bump tx).1 = 0 ∧
    ((sentTxs (trySubmit outcome bump tx).1).map TxRequest.gasPrice).all
      (fun p => p == tx.gasPrice) = true := by
  unfold trySubmit
  cases outcome 0 with
  | ok r => simp [sentTxs, countEstimates]
  | error msg =>
    by_cases h : isGasShortfall msg = true <;>
      simp [h, sentTxs, countEstimates]

/-- C1: if the first send/confirm attempt fails with a message matching
the gas-shortfall signature ("gas limit" or "UNPREDICTABLE_GAS_LIMIT"),
exactly one retry is performed, re-signed and re-sent with the same
nonce, destination and all other fields unchanged and an increased gas
limit (`gasLimit.mul(150).div(100)` in the batch-rebalance flow, the
constant 750000 in the single-swap flow), and a second failure is
terminal (the retry's outcome is returned unchanged); if the message
does not match, no retry occurs and the original error propagates
unchanged. -/
theorem c1_retry_policy (outcome : Nat → Except String Receipt)
    (tx : TxRequest) (msg : String) (h : outcome 0 = Except.error msg) :
    (isGasShortfall msg = true →
      sentTxs (trySubmit outcome (fun g => g * 150 / 100) tx).1 =
        [tx, { tx with gasLimit := tx.gasLimit * 150 / 100 }] ∧
      sentTxs (trySubmit outcome (fun _ => 750000) tx).1 =
        [tx, { tx with gasLimit := 750000 }] ∧
      (trySubmit outcome (fun g => g * 150 / 100) tx).2 = outcome 1 ∧
      (trySubmit outcome (fun _ => 750000) tx).2 = outcome 1) ∧
    (isGasShortfall msg = false →
      sentTxs (trySubmit outcome (fun g => g * 150 / 100) tx).1 = [tx] ∧
      (trySubmit outcome (fun g => g * 150 / 100) tx).2 = Except.error msg ∧
      sentTxs (trySubmit outcome (fun _ => 750000) tx).1 = [tx] ∧
      (trySubmit outcome (fun _ => 750000) tx).2 = Except.error msg) := by
  constructor
  · intro hg
    unfold trySubmit
    rw [h]
    simp [hg, sentTxs]
  · intro hg
    unfold trySubmit
    rw [h]
    simp [hg, sentTxs]

/-- Witness for C1: a concrete first-attempt failure whose message
contains "gas limit" leads to exactly the one bumped retry in each
flow. -/
theorem c1_retry_policy_witness :
    isGasShortfall "cannot estimate gas limit" = true ∧
    sentTxs (trySubmit outcomeRetry (fun g => g * 150 / 100) txA).1 =
      [txA, { txA with gasLimit := 600000 }] ∧
    sentTxs (trySubmit outcomeRetry (fun _ => 750000) txA).1 =
      [txA, { txA with gasLimit := 750000 }] :=
  ⟨by decide,
   ((c1_retry_policy outcomeRetry txA "cannot estimate gas limit" rfl).1
      (by decide)).1,
   ((c1_retry_policy outcomeRetry txA "cannot estimate gas limit" rfl).1
      (by decide)).2.1⟩

/-- C2: on estimation success `G` the gas limit is
`floor(G * 120 / 100)` (truncating integer arithmetic); on any
estimation failure it is the static fallback unchanged; and the
estimation outcome never changes the overall result of the batch flow
(estimation failure is not propagated). -/
theorem c2_gas_buffer_and_fallback :
    (∀ g fallback, estimateGasLimit (Except.ok g) fallback = g * 120 / 100) ∧
    (∀ msg fallback,
      estimateGasLimit (Except.error msg) fallback = fallback) ∧
    (∀ (env : Env) (d : RebalanceData) (e : Except String Nat),
      (executeWalletRebalancing { env with estimate := e } d).2 =
        (executeWalletRebalancing env d).2) := by
  refine ⟨fun g fb => rfl, fun msg fb => rfl, fun env d e => ?_⟩
  unfold executeWalletRebalancing
  have hh : handleRequiredAllowances { env with estimate := e }
      d.requiredAllowances = handleRequiredAllowances env d.requiredAllowances :=
    rfl
  by_cases hc : (strFalsy d.txHandler || strFalsy d.txData) = true
  · simp [hc]
  · simp only [hc, if_false, hh]
    cases hr : (handleRequiredAllowances env d.requiredAllowances).2 with
    | error e2 => simp
    | ok v =>
      simp only [trySubmit_snd]
      rfl

/-- An environment whose allowances are all already maximal. -/
def envRich : Env := { envBase with allowance := fun _ _ => maxUint256 }

/-- C4: an allowance requirement whose current on-chain allowance is at
least the needed amount issues zero approval transactions and completes
successfully with `false` ("no approval was needed"). -/
theorem c4_satisfied_requirement_noop (env : Env)
    (tokenAddress spenderAddress : String) (amount : Nat)
    (h : amount ≤ env.allowance tokenAddress spenderAddress) :
    checkAndSetAllowance env tokenAddress spenderAddress amount =
      ([Call.readAllowance tokenAddress spenderAddress], Except.ok false) ∧
    approvalsIssued
      (checkAndSetAllowance env tokenAddress spenderAddress amount).1 = [] := by
  have hlt : ¬ env.allowance tokenAddress spenderAddress < amount :=
    Nat.not_lt.mpr h
  unfold checkAndSetAllowance
  simp [hlt, approvalsIssued]

/-- Witness for C4: with a maximal pre-existing allowance the check is a
successful no-op. -/
theorem c4_satisfied_requirement_noop_witness :
    checkAndSetAllowance envRich fromTokenAddress "0xrouter" sellAmount =
      ([Call.readAllowance fromTokenAddress "0xrouter"], Except.ok false) :=
  (c4_satisfied_requirement_noop envRich fromTokenAddress "0xrouter"
    sellAmount (by decide)).1

/-- C5: an allowance requirement whose current allowance is strictly
below the needed amount issues exactly one approval transaction, and it
approves `MaxUint256`, not the needed amount; when the approval
confirms, the check returns `true`. -/
theorem c5_underapproved_max_approval (env : Env)
    (tokenAddress spenderAddress : String) (amount : Nat)
    (h : env.allowance tokenAddress spenderAddress < amount) :
    approvalsIssued
        (checkAndSetAllowance env tokenAddress spenderAddress amount).1 =
      [(tokenAddress, spenderAddress, maxUint256)] ∧
    ((env.approveOutcome tokenAddress spenderAddress).isOk = true →
      (checkAndSetAllowance env tokenAddress spenderAddress amount).2 =
        Except.ok true) := by
  unfold checkAndSetAllowance
  cases ha : env.approveOutcome tokenAddress spenderAddress <;>
    simp [h, ha, approvalsIssued, Except.isOk, Except.toBool]

/-- Witness for C5: with a zero current allowance, exactly one approval
for `MaxUint256` is issued. -/
theorem c5_underapproved_max_approval_witness :
    approvalsIssued
        (checkAndSetAllowance envBase fromTokenAddress "0xrouter" sellAmount).1 =
      [(fromTokenAddress, "0xrouter", maxUint256)] :=
  (c5_underapproved_max_approval envBase fromTokenAddress "0xrouter"
    sellAmount (by decide)).1

theorem firstError_ne_none_of_mem (rs : List (Except String Bool))
    (e : String) (h : Except.error e ∈ rs) : firstError rs ≠ none := by
  induction rs with
  | nil => cases h
  | cons r l ih =>
    rcases List.mem_cons.mp h with rfl | hmem
    · simp [firstError]
    · cases r with
      | error e2 => simp [firstError]
      | ok b => simpa [firstError] using ih hmem

theorem handle_mem_error (env : Env) (reqs : List AllowanceReq)
    (a : AllowanceReq) (ha : a ∈ reqs) (e : String)
    (he : (processRequirement env a).2 = Except.error e) :
    ((handleRequiredAllowances env reqs).2).isOk = false := by
  unfold handleRequiredAllowances
  have hne : reqs.isEmpty = false := by
    cases reqs
    · cases ha
    · rfl
  simp only [hne, Bool.false_eq_true, if_false]
  have hmem : Except.error e ∈
      List.map Prod.snd (reqs.map (processRequirement env)) := by
    rw [← he]
    exact List.mem_map_of_mem _ (List.mem_map_of_mem _ ha)
  cases hf : firstError (List.map Prod.snd (reqs.map (processRequirement env))) with
  | none => exact absurd hf (firstError_ne_none_of_mem _ _ hmem)
  | some e2 => simp [hf, Except.isOk, Except.toBool]

/-- C6: a requirement list containing an entry missing its token
address, spender address, or needed amount makes the whole
reconciliation fail (success is never reported). -/
theorem c6_missing_field_fails_reconciliation (env : Env)
    (reqs : List AllowanceReq) (a : AllowanceReq) (ha : a ∈ reqs)
    (hm : a.tokenAddress = none ∨ a.allowanceTarget = none ∨
      a.neededAllowance = none) :
    ((handleRequiredAllowances env reqs).2).isOk = false := by
  apply handle_mem_error env reqs a ha "Incomplete allowance data"
  unfold processRequirement
  rcases hm with h | h | h <;> simp [h, strFalsy, natFalsy]

/-- A well-formed requirement. -/
def reqGood : AllowanceReq :=
  { tokenAddress := some "0xToken2", symbol := "TK2"
    allowanceTarget := some "0xSpender", neededAllowance := some 1000 }

/-- A requirement whose spender address is missing. -/
def reqMissingSpender : AllowanceReq :=
  { tokenAddress := some "0xToken1", symbol := "TK1"
    allowanceTarget := none, neededAllowance := some 1000 }

/-- Witness for C6: one malformed entry (missing spender) next to a
well-formed one fails the whole reconciliation. -/
theorem c6_missing_field_fails_reconciliation_witness :
    ((handleRequiredAllowances envBase [reqGood, reqMissingSpender]).2).isOk
      = false :=
  c6_missing_field_fails_reconciliation envBase [reqGood, reqMissingSpender]
    reqMissingSpender (by decide) (Or.inr (Or.inl rfl))

/-- C10: a requirement whose needed amount is present but equal to the
falsy number 0 is treated as incomplete allowance data and fails the
whole reconciliation, even though a needed amount of 0 would be
satisfied by any current allowance (the allowance check alone would
succeed with no approval). -/
theorem c10_zero_needed_fails (env : Env) (reqs : List AllowanceReq)
    (a : AllowanceReq) (ha : a ∈ reqs) (hz : a.neededAllowance = some 0) :
    ((handleRequiredAllowances env reqs).2).isOk = false ∧
    ∀ tokenAddress spenderAddress,
      (checkAndSetAllowance env tokenAddress spenderAddress 0).2 =
        Except.ok false := by
  constructor
  · apply handle_mem_error env reqs a ha "Incomplete allowance data"
    unfold processRequirement
    simp [hz, natFalsy]
  · intro t s
    unfold checkAndSetAllowance
    simp

/-- A requirement with a needed amount of zero. -/
def reqZeroNeeded : AllowanceReq :=
  { tokenAddress := some "0xToken3", symbol := "TK3"
    allowanceTarget := some "0xSpender", neededAllowance := some 0 }

/-- Witness for C10: a zero needed amount fails reconciliation even in
an environment where every allowance is already maximal. -/
theorem c10_zero_needed_fails_witness :
    ((handleRequiredAllowances envRich [reqZeroNeeded]).2).isOk = false :=
  (c10_zero_needed_fails envRich [reqZeroNeeded] reqZeroNeeded
    (by decide) rfl).1

/-- A rebalancing response lacking its transaction destination
(`txHandler`). -/
def dMissingHandler : RebalanceData :=
  { txHandler := none, txData := some "0xcalldata", txValue := none
    gasPrice := none, requiredAllowances := [reqGood] }

/-- Counterexample to C7: with `txHandler` missing, the batch flow
returns normally (`Except.ok none`, the JavaScript `undefined`), not an
error — it aborts before any allowance or gas call, but no
`NoExecutableTransaction` error is raised. -/
theorem c7_counterexample :
    (executeWalletRebalancing envBase dMissingHandler).2 = Except.ok none ∧
    ((executeWalletRebalancing envBase dMissingHandler).2).isOk = true ∧
    (executeWalletRebalancing envBase dMissingHandler).1 = [] :=
  ⟨rfl, rfl, rfl⟩

/-- C7 (amended): for every plan whose transaction payload (`txHandler`
or `txData`) is absent or empty, execution returns early with no error
(the script logs a warning and returns `undefined`), before performing
any allowance read, approval, or gas estimation call. -/
theorem c7_missing_payload_early_return (env : Env) (d : RebalanceData)
    (h : strFalsy d.txHandler = true ∨ strFalsy d.txData = true) :
    executeWalletRebalancing env d = ([], Except.ok none) := by
  unfold executeWalletRebalancing
  rcases h with h | h <;> simp [h]

/-- A rebalancing response lacking its call data (`txData`). -/
def dMissingData : RebalanceData :=
  { txHandler := some "0xhandler", txData := none, txValue := none
    gasPrice := none, requiredAllowances := [] }

/-- Witness for the amended C7 at a concrete plan with no call data. -/
theorem c7_missing_payload_early_return_witness :
    executeWalletRebalancing envBase dMissingData = ([], Except.ok none) :=
  c7_missing_payload_early_return envBase dMissingData (Or.inr rfl)

/-- Counterexample to C9: a reconciliation that issues one approval
returns the JavaScript `undefined` (modelled `Except.ok none`), not the
count `1` of approvals issued. -/
theorem c9_counterexample :
    (handleRequiredAllowances envBase [reqGood]).2 = Except.ok none ∧
    (approvalsIssued (handleRequiredAllowances envBase [reqGood]).1).length
      = 1 ∧
    (Except.ok (none : Option Nat) : Except String (Option Nat)) ≠
      Except.ok (some 1) :=
  ⟨rfl, rfl, by simp⟩

theorem checkAndSet_summary (env : Env) (t s : String) (amt : Nat)
    (hap : (env.approveOutcome t s).isOk = true) :
    ((checkAndSetAllowance env t s amt).2).isOk = true ∧
    (approvalsIssued (checkAndSetAllowance env t s amt).1).length =
      (if env.allowance t s < amt then 1 else 0) := by
  unfold checkAndSetAllowance
  by_cases h : env.allowance t s < amt
  · cases ha : env.approveOutcome t s with
    | ok r => simp [h, ha, approvalsIssued, Except.isOk, Except.toBool]
    | error e =>
      rw [ha] at hap
      simp [Except.isOk, Except.toBool] at hap
  · simp [h, approvalsIssued, Except.isOk, Except.toBool]

theorem reconcile_core (env : Env) (reqs : List AllowanceReq)
    (hw : ∀ a ∈ reqs, (strFalsy a.tokenAddress || strFalsy a.allowanceTarget
      || natFalsy a.neededAllowance) = false)
    (hap : ∀ t s, (env.approveOutcome t s).isOk = true) :
    firstError (List.map Prod.snd (reqs.map (processRequirement env))) = none ∧
    (approvalsIssued
      ((reqs.map (processRequirement env)).map Prod.fst).flatten).length =
      (reqs.filter fun a =>
        env.allowance (a.tokenAddress.getD "") (a.allowanceTarget.getD "")
          < a.neededAllowance.getD 0).length := by
  induction reqs with
  | nil => exact ⟨rfl, rfl⟩
  | cons b l ih =>
    have hwb := hw b (List.mem_cons_self b l)
    obtain ⟨ih1, ih2⟩ := ih (fun a hal => hw a (List.mem_cons_of_mem b hal))
    have hpb : processRequirement env b =
        checkAndSetAllowance env (b.tokenAddress.getD "")
          (b.allowanceTarget.getD "") (b.neededAllowance.getD 0) := by
      unfold processRequirement
      simp [hwb]
    obtain ⟨hs1, hs2⟩ := checkAndSet_summary env (b.tokenAddress.getD "")
      (b.allowanceTarget.getD "") (b.neededAllowance.getD 0) (hap _ _)
    constructor
    · simp only [List.map_cons]
      rw [hpb]
      cases hx : (checkAndSetAllowance env (b.tokenAddress.getD "")
          (b.allowanceTarget.getD "") (b.neededAllowance.getD 0)).2 with
      | ok v => simpa [firstError] using ih1
      | error e =>
        rw [hx] at hs1
        simp [Except.isOk, Except.toBool] at hs1
    · simp only [List.map_cons, List.flatten_cons]
      rw [approvalsIssued_append, List.length_append, hpb, hs2, ih2,
        List.filter_cons]
      by_cases hb : env.allowance (b.tokenAddress.getD "")
          (b.allowanceTarget.getD "") < b.neededAllowance.getD 0
      · simp [hb, Nat.add_comm]
      · simp [hb]

/-- C9 (amended): reconciliation of well-formed requirements (all fields
present and truthy) with confirming approvals returns the JavaScript
`undefined` (not a count), and the number of approval transactions it
issues equals the number of under-approved entries. -/
theorem c9_reconcile_returns_undefined (env : Env) (reqs : List AllowanceReq)
    (hw : ∀ a ∈ reqs, (strFalsy a.tokenAddress || strFalsy a.allowanceTarget
      || natFalsy a.neededAllowance) = false)
    (hap : ∀ t s, (env.approveOutcome t s).isOk = true) :
    (handleRequiredAllowances env reqs).2 = Except.ok none ∧
    (approvalsIssued (handleRequiredAllowances env reqs).1).length =
      (reqs.filter fun a =>
        env.allowance (a.tokenAddress.getD "") (a.allowanceTarget.getD "")
          < a.neededAllowance.getD 0).length := by
  obtain ⟨h1, h2⟩ := reconcile_core env reqs hw hap
  unfold handleRequiredAllowances
  cases reqs with
  | nil => exact ⟨rfl, rfl⟩
  | cons b l =>
    simp only [List.isEmpty_cons, Bool.false_eq_true, if_false]
    rw [h1]
    exact ⟨rfl, h2⟩

/-- Witness for the amended C9: one well-formed under-approved entry
yields `undefined` and exactly one approval issued. -/
theorem c9_reconcile_returns_undefined_witness :
    (handleRequiredAllowances envBase [reqGood]).2 = Except.ok none ∧
    (approvalsIssued (handleRequiredAllowances envBase [reqGood]).1).length =
      ([reqGood].filter fun a =>
        envBase.allowance (a.tokenAddress.getD "") (a.allowanceTarget.getD "")
          < a.neededAllowance.getD 0).length :=
  c9_reconcile_returns_undefined envBase [reqGood] (by decide) (fun t s => rfl)

theorem all_gasPrice_two (p1 p2 : List Call)
    (outcome : Nat → Except String Receipt) (bump : Nat → Nat)
    (tx : TxRequest) (h1 : sentTxs p1 = []) (h2 : sentTxs p2 = []) :
    ((sentTxs (p1 ++ p2 ++ (trySubmit outcome bump tx).1)).map
      TxRequest.gasPrice).all (fun p => p == tx.gasPrice) = true := by
  rw [sentTxs_append, sentTxs_append, h1, h2]
  simpa using (trySubmit_sent_head outcome bump tx).2.2

theorem all_gasPrice_three (p1 p2 p3 : List Call)
    (outcome : Nat → Except String Receipt) (bump : Nat → Nat)
    (tx : TxRequest) (h1 : sentTxs p1 = []) (h2 : sentTxs p2 = [])
    (h3 : sentTxs p3 = []) :
    ((sentTxs (p1 ++ p2 ++ p3 ++ (trySubmit outcome bump tx).1)).map
      TxRequest.gasPrice).all (fun p => p == tx.gasPrice) = true := by
  rw [sentTxs_append, sentTxs_append, sentTxs_append, h1, h2, h3]
  simpa using (trySubmit_sent_head outcome bump tx).2.2

/-- A fully executable rebalancing response carrying a gas-price hint
of 5 (which the batch script never reads). -/
def dWithHint : RebalanceData :=
  { txHandler := some "0xhandler", txData := some "0xbatchdata"
    txValue := none, gasPrice := some 5, requiredAllowances := [] }

/-- Counterexample to C8: in the batch-rebalance flow a plan gas-price
hint of 5 is ignored; the transaction is sent with the network gas
price 7. -/
theorem c8_counterexample :
    dWithHint.gasPrice = some 5 ∧
    envBase.gasPrice = 7 ∧
    (sentTxs (executeWalletRebalancing envBase dWithHint).1).map
      TxRequest.gasPrice = [7] ∧
    (7 : Nat) ≠ 5 := by
  refine ⟨rfl, rfl, rfl, by decide⟩

/-- C8 (amended): the single-swap flow uses the quote's gas-price hint
when it is present and truthy, and the current network gas price
otherwise; the batch-rebalance flow always uses the current network gas
price, ignoring any hint in the plan. -/
theorem c8_gas_price_policy (env : Env) (q : SwapQuote) (d : RebalanceData)
    (g : Nat) :
    (q.txGasPrice = some g → g ≠ 0 →
      ((sentTxs (swapWithThirtyOneThird env q).1).map TxRequest.gasPrice).all
        (fun p => p == g) = true) ∧
    (q.txGasPrice = none →
      ((sentTxs (swapWithThirtyOneThird env q).1).map TxRequest.gasPrice).all
        (fun p => p == env.gasPrice) = true) ∧
    ((sentTxs (executeWalletRebalancing env d).1).map TxRequest.gasPrice).all
      (fun p => p == env.gasPrice) = true := by
  refine ⟨?_, ?_, ?_⟩
  · intro hq hg
    unfold swapWithThirtyOneThird
    cases ha : (checkAndSetAllowance env fromTokenAddress q.txTo sellAmount).2 with
    | error e =>
      simp [ha, (checkAndSetAllowance_trace_clean env fromTokenAddress q.txTo
        sellAmount).1]
    | ok v =>
      simp only [ha, hq]
      rw [if_neg hg]
      exact all_gasPrice_three _ [] [Call.readNonce, Call.readChainId]
        env.attemptOutcome _ _
        (checkAndSetAllowance_trace_clean env fromTokenAddress q.txTo
          sellAmount).1 rfl rfl
  · intro hq
    unfold swapWithThirtyOneThird
    cases ha : (checkAndSetAllowance env fromTokenAddress q.txTo sellAmount).2 with
    | error e =>
      simp [ha, (checkAndSetAllowance_trace_clean env fromTokenAddress q.txTo
        sellAmount).1]
    | ok v =>
      simp only [ha, hq]
      exact all_gasPrice_three _ [Call.readGasPrice]
        [Call.readNonce, Call.readChainId] env.attemptOutcome _ _
        (checkAndSetAllowance_trace_clean env fromTokenAddress q.txTo
          sellAmount).1 rfl rfl
  · unfold executeWalletRebalancing
    by_cases hc : (strFalsy d.txHandler || strFalsy d.txData) = true
    · simp [hc, sentTxs]
    · rw [if_neg hc]
      cases hr : (handleRequiredAllowances env d.requiredAllowances).2 with
      | error e =>
        simp [hr,
          (handleRequiredAllowances_trace_clean env d.requiredAllowances).1]
      | ok v =>
        simp only [hr]
        exact all_gasPrice_two _ [Call.readGasPrice, Call.estimateGasCall,
          Call.readNonce, Call.readChainId] env.attemptOutcome _ _
          (handleRequiredAllowances_trace_clean env d.requiredAllowances).1 rfl

/-- A quote carrying a truthy gas-price hint of 9. -/
def quoteHint : SwapQuote :=
  { txTo := "0xrouter", txData := "0xcalldata", txValue := none
    txGasPrice := some 9 }

/-- Witness for the amended C8: a concrete quote hint of 9 is used as
the gas price of every broadcast single-swap transaction. -/
theorem c8_gas_price_policy_witness :
    ((sentTxs (swapWithThirtyOneThird envBase quoteHint).1).map
      TxRequest.gasPrice).all (fun p => p == 9) = true :=
  (c8_gas_price_policy envBase quoteHint dWithHint 9).1 rfl (by decide)

/-- A quote with no gas-price hint. -/
def quoteA : SwapQuote :=
  { txTo := "0xrouter", txData := "0xcalldata", txValue := none
    txGasPrice := none }

/-- Counterexample to C3: in the single-swap flow, even in an
environment where estimation would succeed (returning 100000), no gas
estimation call is ever made and the transaction is broadcast with the
fixed limit 500000. -/
theorem c3_counterexample :
    envBase.estimate = Except.ok 100000 ∧
    countEstimates (swapWithThirtyOneThird envBase quoteA).1 = 0 ∧
    ((sentTxs (swapWithThirtyOneThird envBase quoteA).1).map
      TxRequest.gasLimit).head? = some 500000 :=
  ⟨rfl, rfl, rfl⟩

theorem noEstimate_of_countZero (cs : List Call)
    (h : countEstimates cs = 0) :
    ∀ c ∈ cs, (c != Call.estimateGasCall) = true := by
  intro c hc
  have hnil : cs.filter (fun c => c == Call.estimateGasCall) = [] :=
    List.length_eq_zero.mp h
  have hn := List.filter_eq_nil_iff.mp hnil c hc
  simpa using hn

theorem head_gasLimit_two (p1 p2 : List Call)
    (outcome : Nat → Except String Receipt) (bump : Nat → Nat)
    (tx : TxRequest) (h1 : sentTxs p1 = []) (h2 : sentTxs p2 = []) :
    ((sentTxs (p1 ++ p2 ++ (trySubmit outcome bump tx).1)).map
      TxRequest.gasLimit).head? = some tx.gasLimit := by
  rw [sentTxs_append, sentTxs_append, h1, h2]
  simpa using (trySubmit_sent_head outcome bump tx).1

theorem gp_trace_clean (env : Env) (o : Option Nat) :
    sentTxs (match o with
      | some g =>
        if g = 0 then ([Call.readGasPrice], env.gasPrice)
        else (([] : List Call), g)
      | none => ([Call.readGasPrice], env.gasPrice)).1 = [] ∧
    countEstimates (match o with
      | some g =>
        if g = 0 then ([Call.readGasPrice], env.gasPrice)
        else (([] : List Call), g)
      | none => ([Call.readGasPrice], env.gasPrice)).1 = 0 := by
  cases o with
  | none => exact ⟨rfl, rfl⟩
  | some g =>
    by_cases hg : g = 0
    · simp only [hg, if_pos]
      exact ⟨rfl, rfl⟩
    · simp only [if_neg hg]
      exact ⟨rfl, rfl⟩

theorem swap_trace_shape (env : Env) (q : SwapQuote) (v : Bool)
    (ha : (checkAndSetAllowance env fromTokenAddress q.txTo sellAmount).2 =
      Except.ok v) :
    (swapWithThirtyOneThird env q).1 =
      (checkAndSetAllowance env fromTokenAddress q.txTo sellAmount).1 ++
      (match q.txGasPrice with
       | some g =>
         if g = 0 then ([Call.readGasPrice], env.gasPrice)
         else (([] : List Call), g)
       | none => ([Call.readGasPrice], env.gasPrice)).1 ++
      [Call.readNonce, Call.readChainId] ++
      (trySubmit env.attemptOutcome (fun _ => 750000)
        { toAddr := q.txTo, data := q.txData, value := q.txValue.getD 0
          gasLimit := 500000
          gasPrice := (match q.txGasPrice with
            | some g =>
              if g = 0 then ([Call.readGasPrice], env.gasPrice)
              else (([] : List Call), g)
            | none => ([Call.readGasPrice], env.gasPrice)).2
          nonce := env.nonce, chainId := env.chainId }).1 := by
  unfold swapWithThirtyOneThird
  simp only [ha]

/-- C3 (amended): the batch-rebalance flow attempts gas estimation
exactly once, after the allowance phase and before any broadcast of the
rebalance transaction (no main-transaction send precedes the estimation
call in its trace), sending with limit `G * 120 / 100` on estimation
success `G` and with the fallback `3000000` on estimation failure; the
single-swap flow never attempts estimation and always broadcasts with
the fixed limit 500000. -/
theorem c3_estimation_policy (env : Env) (d : RebalanceData) (q : SwapQuote)
    (h1 : strFalsy d.txHandler = false) (h2 : strFalsy d.txData = false)
    (h3 : ((handleRequiredAllowances env d.requiredAllowances).2).isOk
      = true) :
    countEstimates (executeWalletRebalancing env d).1 = 1 ∧
    sentTxs ((executeWalletRebalancing env d).1.takeWhile
      (fun c => c != Call.estimateGasCall)) = [] ∧
    (∀ g, env.estimate = Except.ok g →
      ((sentTxs (executeWalletRebalancing env d).1).map
        TxRequest.gasLimit).head? = some (g * 120 / 100)) ∧
    (∀ msg, env.estimate = Except.error msg →
      ((sentTxs (executeWalletRebalancing env d).1).map
        TxRequest.gasLimit).head? = some 3000000) ∧
    countEstimates (swapWithThirtyOneThird env q).1 = 0 ∧
    (((checkAndSetAllowance env fromTokenAddress q.txTo sellAmount).2).isOk
        = true →
      ((sentTxs (swapWithThirtyOneThird env q).1).map
        TxRequest.gasLimit).head? = some 500000) := by
  have hcond : ¬ ((strFalsy d.txHandler || strFalsy d.txData) = true) := by
    simp [h1, h2]
  have htc := handleRequiredAllowances_trace_clean env d.requiredAllowances
  cases hr : (handleRequiredAllowances env d.requiredAllowances).2 with
  | error e =>
    rw [hr] at h3
    simp [Except.isOk, Except.toBool] at h3
  | ok v =>
    have hexec : (executeWalletRebalancing env d).1 =
        (handleRequiredAllowances env d.requiredAllowances).1 ++
        [Call.readGasPrice, Call.estimateGasCall, Call.readNonce,
         Call.readChainId] ++
        (trySubmit env.attemptOutcome (fun g2 => g2 * 150 / 100)
          { toAddr := d.txHandler.getD "", data := d.txData.getD ""
            value := d.txValue.getD 0
            gasLimit := estimateGasLimit env.estimate 3000000
            gasPrice := env.gasPrice, nonce := env.nonce
            chainId := env.chainId }).1 := by
      unfold executeWalletRebalancing
      rw [if_neg hcond]
      simp only [hr]
    refine ⟨?_, ?_, ?_, ?_, ?_, ?_⟩
    · rw [hexec, countEstimates_append, countEstimates_append, htc.2,
        (trySubmit_sent_head env.attemptOutcome (fun g2 => g2 * 150 / 100)
          _).2.1]
      rfl
    · have hall := noEstimate_of_countZero _ htc.2
      rw [hexec, List.append_assoc, List.takeWhile_append_of_pos hall,
        sentTxs_append, htc.1]
      rfl
    · intro g hg
      rw [hexec, head_gasLimit_two _ [Call.readGasPrice, Call.estimateGasCall,
        Call.readNonce, Call.readChainId] _ _ _ htc.1 rfl, hg]
      rfl
    · intro msg hmsg
      rw [hexec, head_gasLimit_two _ [Call.readGasPrice, Call.estimateGasCall,
        Call.readNonce, Call.readChainId] _ _ _ htc.1 rfl, hmsg]
      rfl
    · have hac := checkAndSetAllowance_trace_clean env fromTokenAddress
        q.txTo sellAmount
      cases ha : (checkAndSetAllowance env fromTokenAddress q.txTo
          sellAmount).2 with
      | error e =>
        have hsh : (swapWithThirtyOneThird env q).1 =
            (checkAndSetAllowance env fromTokenAddress q.txTo sellAmount).1 := by
          unfold swapWithThirtyOneThird
          simp only [ha]
        rw [hsh, hac.2]
      | ok v2 =>
        rw [swap_trace_shape env q v2 ha, countEstimates_append,
          countEstimates_append, countEstimates_append, hac.2,
          (gp_trace_clean env q.txGasPrice).2,
          (trySubmit_sent_head env.attemptOutcome (fun _ => 750000) _).2.1]
        rfl
    · intro hok
      have hac := checkAndSetAllowance_trace_clean env fromTokenAddress
        q.txTo sellAmount
      cases ha : (checkAndSetAllowance env fromTokenAddress q.txTo
          sellAmount).2 with
      | error e =>
        rw [ha] at hok
        simp [Except.isOk, Except.toBool] at hok
      | ok v2 =>
        rw [swap_trace_shape env q v2 ha]
        have hgp := (gp_trace_clean env q.txGasPrice).1
        have h12 : sentTxs
            ((checkAndSetAllowance env fromTokenAddress q.txTo sellAmount).1 ++
             (match q.txGasPrice with
              | some g =>
                if g = 0 then ([Call.readGasPrice], env.gasPrice)
                else (([] : List Call), g)
              | none => ([Call.readGasPrice], env.gasPrice)).1) = [] := by
          rw [sentTxs_append, hac.1, hgp]
          rfl
        rw [head_gasLimit_two _ [Call.readNonce, Call.readChainId] _ _ _
          h12 rfl]

/-- Witness for the amended C3 at concrete executable inputs: the batch
flow performs exactly one estimation call, the single-swap flow none. -/
theorem c3_estimation_policy_witness :
    countEstimates (executeWalletRebalancing envBase dWithHint).1 = 1 ∧
    countEstimates (swapWithThirtyOneThird envBase quoteA).1 = 0 :=
  ⟨(c3_estimation_policy envBase dWithHint quoteA rfl rfl rfl).1,
   (c3_estimation_policy envBase dWithHint quoteA rfl rfl rfl).2.2.2.2.1⟩
